import Mathlib

set_option maxRecDepth 10000

/-!
Shallow embedding of the `yurets` internet-radio broadcast engine
(`src/streaming/streamer.py`, `src/services/scheduler.py`,
`src/streaming/sources/{base,local,telegram}.py`, `src/settings.py`)
together with theorems settling the frozen claims about it.

Modelling conventions:
* Python `datetime.time` values compare lexicographically on
  (hour, minute, second, microsecond); a time-of-day is modelled as the
  total count of microseconds since midnight (a `Nat`), which preserves
  order and equality.
* `random.Random` (a Mersenne-Twister generator) is modelled as a pure
  state `{seed, pos}`: the value of the `pos`-th draw is a fixed
  deterministic mixing function of the seed and the draw index.  This
  captures exactly what the claims quantify over — a seeded generator
  is a deterministic stream, `getstate`/`setstate` copy the state, and
  every draw advances only the state it was performed on.  The global
  `random` module is one more such state, threaded explicitly.
* Python floats appearing in the relevant code paths (`1.0`, `0.05`,
  byte/second rates) are modelled as rationals; every literal involved
  is decimal and the claims compare magnitudes, not bit patterns.
* Fallible Python code is modelled with `Except PyExc`.
-/

/-- Python exception values that the modelled code can raise. -/
inductive PyExc where
  /-- `AttributeError` (undefined attribute access). -/
  | attributeError
  /-- `TypeError` (e.g. a keyword argument the callee does not accept). -/
  | typeError
  /-- `RuntimeError(msg)`. -/
  | runtimeError (msg : String)
  /-- `IndexError` (e.g. `random.choice` of an empty sequence). -/
  | indexError
  /-- `asyncio.CancelledError` — the external cancellation request. -/
  | cancelled
deriving DecidableEq, Repr

/-- Model of a `random.Random` instance: a seeded deterministic stream,
identified by its seed and the number of draws already consumed.
`getstate()`/`setstate()` copy this state verbatim. -/
structure PyRandom where
  seed : Nat
  pos : Nat
deriving DecidableEq, Repr

/-- The value of draw number `pos` of the generator seeded with `seed`:
a fixed 64-bit mixing function (deterministic stand-in for the
Mersenne-Twister output stream, which is likewise a pure function of
seed and draw index). -/
def randValue (seed pos : Nat) : Nat :=
  (seed * 6364136223846793005 + (pos + 1) * 1442695040888963407) % 2 ^ 64

/-- `rng.choice(seq)`: selects `seq[k]` for a draw-derived index `k` and
advances the generator; raises `IndexError` on an empty sequence. -/
def pyChoice {α : Type} (r : PyRandom) (l : List α) : Option (α × PyRandom) :=
  match l with
  | [] => none
  | x :: xs =>
    some ((x :: xs).getD (randValue r.seed r.pos % (xs.length + 1)) x,
      ⟨r.seed, r.pos + 1⟩)

/-- A time-of-day (microseconds since midnight, see module comment). -/
abbrev PyTime := Nat

/-- One schedule slot (`src/settings.py`, class `ScheduleSlot`).
The Python field `end` is a reserved word in Lean and is named `endT`. -/
structure ScheduleSlot where
  start : PyTime
  endT : PyTime
  source : String
  key : Option String
deriving DecidableEq, Repr

/-- `_time_in_slot` (`src/services/scheduler.py` lines 28-34). -/
def time_in_slot (current start endT : PyTime) : Bool :=
  if start = endT then true
  else if start < endT then decide (start ≤ current ∧ current < endT)
  else decide (current ≥ start ∨ current < endT)

/-- `Scheduler.choose_slot` (`src/services/scheduler.py` lines 12-21):
first slot whose interval contains `now`, else the first slot, else
`None`. -/
def choose_slot (slots : List ScheduleSlot) (now : PyTime) : Option ScheduleSlot :=
  match slots.find? (fun s => time_in_slot now s.start s.endT) with
  | some s => some s
  | none => slots.head?

/-- `TrackRef` (`src/streaming/sources/base.py`).  The opaque `ref`
payload is owned by the issuing source and never inspected by any code
the claims mention, so it is omitted here. -/
structure TrackRef where
  title : String
  duration_seconds : Option Nat
  byte_size : Option Nat := none
deriving DecidableEq, Repr

/-- `LocalLibrarySource.next_track` (`src/streaming/sources/local.py`
lines 32-42).  Its Python signature is `next_track(self, mime_type)` —
there is no `rng` parameter — and its body draws with `random.choice`,
i.e. from the process-global generator, threaded here as `globalRng`.
`cache` is the source's candidate file list (already filtered by mime
type by `_refresh_cache_if_needed`). -/
def localNextTrack (cache : List TrackRef) (globalRng : PyRandom) :
    Except PyExc (TrackRef × PyRandom) :=
  if cache.isEmpty then .error (.runtimeError "No audio files found")
  else
    match pyChoice globalRng cache with
    | some (t, g) => .ok (t, g)
    | none => .error .indexError

/-- `TelegramChannelSource.next_track` (`src/streaming/sources/telegram.py`
lines 130-141): checks session/channel/candidates, then draws with
`chooser = rng or random`.  Returns the track together with the caller
rng (if one was passed) and the global rng, each advanced exactly when
it was the chooser.  `candidates` is the mime-filtered candidate list. -/
def telegramNextTrack (enabled : Bool) (channel : String)
    (candidates : List TrackRef) (rng : Option PyRandom) (globalRng : PyRandom) :
    Except PyExc (TrackRef × Option PyRandom × PyRandom) :=
  if !enabled then .error (.runtimeError "Telegram session is not configured")
  else if channel = "" then
    .error (.runtimeError "Telegram channel key is missing in schedule")
  else if candidates.isEmpty then
    .error (.runtimeError "No suitable audio messages found in Telegram channel")
  else
    match rng with
    | some r =>
      match pyChoice r candidates with
      | some (t, r2) => .ok (t, some r2, globalRng)
      | none => .error .indexError
    | none =>
      match pyChoice globalRng candidates with
      | some (t, g2) => .ok (t, none, g2)
      | none => .error .indexError

/-- The two concrete source implementations, with the state each one's
`next_track` consults. -/
inductive SourceImpl where
  | localSrc (cache : List TrackRef)
  | telegramSrc (enabled : Bool) (channel : String) (candidates : List TrackRef)
deriving DecidableEq, Repr

/-- Whether the implementation's `next_track` accepts an `rng` keyword:
read off the two `def next_track` parameter lists
(`local.py` line 32 has none, `telegram.py` line 130 has
`rng: random.Random | None = None`). -/
def nextTrackAcceptsRng : SourceImpl → Bool
  | .localSrc _ => false
  | .telegramSrc _ _ _ => true

/-- The call `source.next_track(mime_type=..., rng=rng)` exactly as the
master loop (`streamer.py` line 220) and both previews issue it.
Python raises `TypeError` before entering the body when the callee's
parameter list has no `rng`. -/
def callNextTrackWithRng (src : SourceImpl) (rng : PyRandom) (globalRng : PyRandom) :
    Except PyExc (TrackRef × PyRandom × PyRandom) :=
  match src with
  | .localSrc _ => .error .typeError
  | .telegramSrc enabled channel candidates =>
    match telegramNextTrack enabled channel candidates (some rng) globalRng with
    | .ok (t, some r2, g2) => .ok (t, r2, g2)
    | .ok (t, none, g2) => .ok (t, rng, g2)
    | .error e => .error e

/-! SHA-256 (FIPS 180-4), the hash behind `Streamer._stable_seed`
(`streamer.py` lines 637-640, via `hashlib.sha256`).  Words are `Nat`s
reduced modulo `2 ^ 32`; bytes are `Nat`s below 256. -/

/-- Reduce to a 32-bit word. -/
def w32 (x : Nat) : Nat := x % 2 ^ 32

/-- Right-rotation of a 32-bit word by `n`. -/
def rotr32 (n x : Nat) : Nat := w32 ((x >>> n) ||| (x <<< (32 - n)))

/-- SHA-256 `Ch(x,y,z)`; `~x` on 32 bits is `x ^^^ 0xffffffff`. -/
def shaCh (x y z : Nat) : Nat := (x &&& y) ^^^ ((x ^^^ 0xffffffff) &&& z)

/-- SHA-256 `Maj(x,y,z)`. -/
def shaMaj (x y z : Nat) : Nat := (x &&& y) ^^^ (x &&& z) ^^^ (y &&& z)

/-- SHA-256 `Σ₀`. -/
def bsig0 (x : Nat) : Nat := rotr32 2 x ^^^ rotr32 13 x ^^^ rotr32 22 x

/-- SHA-256 `Σ₁`. -/
def bsig1 (x : Nat) : Nat := rotr32 6 x ^^^ rotr32 11 x ^^^ rotr32 25 x

/-- SHA-256 `σ₀`. -/
def ssig0 (x : Nat) : Nat := rotr32 7 x ^^^ rotr32 18 x ^^^ (x >>> 3)

/-- SHA-256 `σ₁`. -/
def ssig1 (x : Nat) : Nat := rotr32 17 x ^^^ rotr32 19 x ^^^ (x >>> 10)

/-- The 64 SHA-256 round constants. -/
def shaK : List Nat :=
  [1116352408, 1899447441, 3049323471, 3921009573, 961987163, 1508970993,
   2453635748, 2870763221, 3624381080, 310598401, 607225278, 1426881987,
   1925078388, 2162078206, 2614888103, 3248222580, 3835390401, 4022224774,
   264347078, 604807628, 770255983, 1249150122, 1555081692, 1996064986,
   2554220882, 2821834349, 2952996808, 3210313671, 3336571891, 3584528711,
   113926993, 338241895, 666307205, 773529912, 1294757372, 1396182291,
   1695183700, 1986661051, 2177026350, 2456956037, 2730485921, 2820302411,
   3259730800, 3345764771, 3516065817, 3600352804, 4094571909, 275423344,
   430227734, 506948616, 659060556, 883997877, 958139571, 1322822218,
   1537002063, 1747873779, 1955562222, 2024104815, 2227730452, 2361852424,
   2428436474, 2756734187, 3204031479, 3329325298]

/-- The eight-word SHA-256 working state. -/
structure ShaState where
  a : Nat
  b : Nat
  c : Nat
  d : Nat
  e : Nat
  f : Nat
  g : Nat
  h : Nat
deriving DecidableEq, Repr

/-- The SHA-256 initial state `H⁽⁰⁾`. -/
def shaH0 : ShaState :=
  ⟨1779033703, 3144134277, 1013904242, 2773480762,
   1359893119, 2600822924, 528734635, 1541459225⟩

/-- Big-endian 8-byte encoding of a value below `2 ^ 64`. -/
def be64 (n : Nat) : List Nat :=
  [(n >>> 56) % 256, (n >>> 48) % 256, (n >>> 40) % 256, (n >>> 32) % 256,
   (n >>> 24) % 256, (n >>> 16) % 256, (n >>> 8) % 256, n % 256]

/-- Big-endian 4-byte encoding of a 32-bit word. -/
def be32 (n : Nat) : List Nat :=
  [(n >>> 24) % 256, (n >>> 16) % 256, (n >>> 8) % 256, n % 256]

/-- SHA-256 padding: `0x80`, zeros to 56 mod 64, 64-bit bit length. -/
def shaPad (msg : List Nat) : List Nat :=
  msg ++ 0x80 :: List.replicate ((56 + 64 - (msg.length + 1) % 64) % 64) 0
      ++ be64 ((msg.length * 8) % 2 ^ 64)

/-- Big-endian 32-bit words of a 64-byte block. -/
def blockWords : List Nat → List Nat
  | b0 :: b1 :: b2 :: b3 :: rest =>
    ((((b0 <<< 8) ||| b1) <<< 8 ||| b2) <<< 8 ||| b3) :: blockWords rest
  | _ => []

/-- Message-schedule extension: append `fuel` further words `W_t`. -/
def extendW (w : List Nat) : Nat → List Nat
  | 0 => w
  | fuel + 1 =>
    let i := w.length
    let nw := w32 (ssig1 (w.getD (i - 2) 0) + w.getD (i - 7) 0
      + ssig0 (w.getD (i - 15) 0) + w.getD (i - 16) 0)
    extendW (w ++ [nw]) fuel

/-- One SHA-256 round with constant `kt` and schedule word `wt`. -/
def shaRound (st : ShaState) (kt wt : Nat) : ShaState :=
  let t1 := w32 (st.h + bsig1 st.e + shaCh st.e st.f st.g + kt + wt)
  let t2 := w32 (bsig0 st.a + shaMaj st.a st.b st.c)
  ⟨w32 (t1 + t2), st.a, st.b, st.c, w32 (st.d + t1), st.e, st.f, st.g⟩

/-- The 64 rounds, driven by the zipped constants/schedule list. -/
def shaRoundsLoop : ShaState → List (Nat × Nat) → ShaState
  | st, [] => st
  | st, (kt, wt) :: rest => shaRoundsLoop (shaRound st kt wt) rest

/-- Compress one 64-byte block into the chaining state. -/
def shaCompress (st : ShaState) (block : List Nat) : ShaState :=
  let w := extendW (blockWords block) 48
  let fin := shaRoundsLoop st (shaK.zip w)
  ⟨w32 (st.a + fin.a), w32 (st.b + fin.b), w32 (st.c + fin.c), w32 (st.d + fin.d),
   w32 (st.e + fin.e), w32 (st.f + fin.f), w32 (st.g + fin.g), w32 (st.h + fin.h)⟩

/-- Split into 64-byte blocks; `fuel` bounds the recursion so the
definition is structural (callers pass the list length). -/
def chunks64Go : Nat → List Nat → List (List Nat)
  | 0, _ => []
  | _ + 1, [] => []
  | fuel + 1, x :: rest => ((x :: rest).take 64) :: chunks64Go fuel ((x :: rest).drop 64)

/-- SHA-256 digest (32 bytes) of a byte list. -/
def sha256 (msg : List Nat) : List Nat :=
  let padded := shaPad msg
  let st := (chunks64Go padded.length padded).foldl shaCompress shaH0
  be32 st.a ++ be32 st.b ++ be32 st.c ++ be32 st.d
    ++ be32 st.e ++ be32 st.f ++ be32 st.g ++ be32 st.h

/-- UTF-8 byte encoding of one character (RFC 3629). -/
def utf8Char (c : Char) : List Nat :=
  let n := c.toNat
  if n < 0x80 then [n]
  else if n < 0x800 then [0xc0 ||| (n >>> 6), 0x80 ||| (n &&& 0x3f)]
  else if n < 0x10000 then
    [0xe0 ||| (n >>> 12), 0x80 ||| ((n >>> 6) &&& 0x3f), 0x80 ||| (n &&& 0x3f)]
  else
    [0xf0 ||| (n >>> 18), 0x80 ||| ((n >>> 12) &&& 0x3f),
     0x80 ||| ((n >>> 6) &&& 0x3f), 0x80 ||| (n &&& 0x3f)]

/-- UTF-8 byte encoding of a string (Python `str.encode("utf-8")`). -/
def utf8 (s : String) : List Nat :=
  s.data.foldr (fun c acc => utf8Char c ++ acc) []

/-- Python `"\0".join(parts)` at the byte level. -/
def joinNul : List (List Nat) → List Nat
  | [] => []
  | [p] => p
  | p :: rest => p ++ 0 :: joinNul rest

/-- Big-endian unsigned integer of a byte list
(`int.from_bytes(-, "big", signed=False)`). -/
def bytesToNatBE (l : List Nat) : Nat := l.foldl (fun acc b => acc * 256 + b) 0

/-- `Streamer._stable_seed(*parts)` (`streamer.py` lines 637-640):
sha256 of the NUL-joined UTF-8 parts, first 8 digest bytes read as a
big-endian unsigned 64-bit value. -/
def stable_seed (parts : List (List Nat)) : Nat :=
  bytesToNatBE ((sha256 (joinNul parts)).take 8)

/-- A Python `datetime.date` (year 1-9999, month 1-12, day 1-31). -/
structure PyDate where
  year : Nat
  month : Nat
  day : Nat
deriving DecidableEq, Repr

/-- The ranges `datetime.date` itself enforces on construction. -/
def PyDate.valid (d : PyDate) : Prop :=
  1 ≤ d.year ∧ d.year ≤ 9999 ∧ 1 ≤ d.month ∧ d.month ≤ 12 ∧ 1 ≤ d.day ∧ d.day ≤ 31

/-- `date.isoformat()` as ASCII bytes: zero-padded `YYYY-MM-DD`
(48 = `'0'`, 45 = `'-'`). -/
def isoBytes (d : PyDate) : List Nat :=
  [48 + d.year / 1000 % 10, 48 + d.year / 100 % 10, 48 + d.year / 10 % 10,
   48 + d.year % 10, 45, 48 + d.month / 10 % 10, 48 + d.month % 10, 45,
   48 + d.day / 10 % 10, 48 + d.day % 10]

/-- The per-day deterministic RNG registry state
(`Streamer._current_day` and `Streamer._slot_rngs`). -/
structure Registry where
  currentDay : Option PyDate
  entries : List ((String × String) × PyRandom)
deriving DecidableEq, Repr

/-- Dictionary lookup in the registry (`self._slot_rngs.get(cache_key)`). -/
def lookupEntry (k : String × String) :
    List ((String × String) × PyRandom) → Option PyRandom
  | [] => none
  | (k2, r) :: rest => if k2 = k then some r else lookupEntry k rest

/-- The seed `Streamer._rng_for` computes:
`_stable_seed(str(day.isoformat()), slot_source, key)`. -/
def rngSeedFor (day : PyDate) (slotSource key : String) : Nat :=
  stable_seed [isoBytes day, utf8 slotSource, utf8 key]

/-- `Streamer._rng_for` (`streamer.py` lines 625-635): return the cached
generator for `(slot_source, key)`, else seed a fresh one from the
current day and cache it.  `today` is `datetime.now(tz).date()`. -/
def rngFor (reg : Registry) (today : PyDate) (slotSource key : String) :
    PyRandom × Registry :=
  let day := reg.currentDay.getD today
  match lookupEntry (slotSource, key) reg.entries with
  | some r => (r, reg)
  | none =>
    let r : PyRandom := ⟨rngSeedFor day slotSource key, 0⟩
    (r, { reg with entries := reg.entries ++ [((slotSource, key), r)] })

/-- The day-rollover check at the top of each master-loop iteration
(`streamer.py` lines 183-187, also `preview_tracks` lines 387-390):
on a calendar-day change, record the new day and clear every entry. -/
def dayCheck (reg : Registry) (today : PyDate) : Registry :=
  if reg.currentDay = some today then reg
  else { currentDay := some today, entries := [] }

/-! Broadcast fan-out (`streamer.py`: `subscribe` lines 142-170,
`_broadcast` lines 538-551, `_close_subscriber` lines 553-566).
A subscriber's `asyncio.Queue(maxsize=Q)` is a bounded FIFO; the
subscriber dictionary is modelled as an association list in insertion
order (Python dicts preserve it).  An entry's `live` flag models its
presence in `self._subscribers`; the queue object itself outlives
removal because the subscriber's generator still holds it.  The ghost
fields `joinIdx`/`received` and the ghost `log` record, respectively,
how many frames had been broadcast when the subscriber joined, what its
generator has yielded so far, and every frame ever broadcast. -/

/-- An item travelling through a subscriber queue: a byte frame, or the
terminal `_SENTINEL` object. -/
inductive QItem where
  | frame (payload : List Nat)
  | sentinel
deriving DecidableEq, Repr

/-- One subscriber (queue plus ghost bookkeeping, see section comment). -/
structure Subscriber where
  capacity : Nat
  items : List QItem
  live : Bool
  joinIdx : Nat
  received : List (List Nat)
deriving DecidableEq, Repr

/-- The fan-out state: subscriber registry, id sequence, the counters
`_broadcast` and `_close_subscriber` maintain, and the ghost `log`. -/
structure Fanout where
  subs : List (Nat × Subscriber)
  seq : Nat
  createdTotal : Nat
  droppedTotal : Nat
  queueFullTotal : Nat
  chunksTotal : Nat
  bytesTotal : Nat
  log : List (List Nat)
deriving DecidableEq, Repr

/-- The engine's initial fan-out state. -/
def Fanout.init : Fanout := ⟨[], 0, 0, 0, 0, 0, 0, []⟩

/-- `q.put_nowait` raises `QueueFull` iff the queue is bounded and at
capacity (`asyncio.Queue.full`). -/
def queueFull (s : Subscriber) : Bool :=
  decide (0 < s.capacity ∧ s.capacity ≤ s.items.length)

/-- The `_broadcast` loop body for one registered subscriber: enqueue
the frame, or — on `QueueFull` — drop the whole subscriber
(`_close_subscriber`: pop from the registry, drain the queue, push the
sentinel).  Returns the updated subscriber and whether it was evicted. -/
def deliverOne (chunk : List Nat) (s : Subscriber) : Subscriber × Bool :=
  if !s.live then (s, false)
  else if queueFull s then ({ s with live := false, items := [QItem.sentinel] }, true)
  else ({ s with items := s.items ++ [QItem.frame chunk] }, false)

/-- `Streamer._broadcast(chunk)` (lines 538-551): bump totals, then
attempt a non-blocking enqueue to every registered subscriber, evicting
each one whose queue is full (counting it in `queue_full_total` and,
via `_close_subscriber`, in `dropped_total`). -/
def broadcast (fo : Fanout) (chunk : List Nat) : Fanout :=
  let delivered := fo.subs.map (fun p => (p.1, deliverOne chunk p.2))
  let evicted := (delivered.filter (fun p => p.2.2)).length
  { fo with
    subs := delivered.map (fun p => (p.1, p.2.1)),
    chunksTotal := fo.chunksTotal + 1,
    bytesTotal := fo.bytesTotal + chunk.length,
    log := fo.log ++ [chunk],
    queueFullTotal := fo.queueFullTotal + evicted,
    droppedTotal := fo.droppedTotal + evicted }

/-- `Streamer.subscribe()` (lines 142-170): allocate the next id, count
it, register a fresh empty bounded queue.  The new subscriber's ghost
`joinIdx` is the number of frames broadcast so far. -/
def subscribeOp (fo : Fanout) (Q : Nat) : Fanout × Nat :=
  let sid := fo.seq + 1
  ({ fo with
      seq := sid,
      createdTotal := fo.createdTotal + 1,
      subs := fo.subs ++ [(sid, ⟨Q, [], true, fo.log.length, []⟩)] }, sid)

/-- One step of the subscriber's generator (`_gen`, lines 159-169):
`await q.get()`; a byte frame is yielded (recorded in `received`), the
sentinel ends the generator, whose `finally` pops the subscriber from
the registry.  An empty queue would suspend: no state change. -/
def consumeSub (s : Subscriber) : Subscriber :=
  match s.items with
  | [] => s
  | QItem.frame f :: rest => { s with items := rest, received := s.received ++ [f] }
  | QItem.sentinel :: rest => { s with items := rest, live := false }

/-- Apply `f` to the subscriber registered under `sid`. -/
def updateSub (subs : List (Nat × Subscriber)) (sid : Nat)
    (f : Subscriber → Subscriber) : List (Nat × Subscriber) :=
  subs.map (fun p => if p.1 = sid then (p.1, f p.2) else p)

/-- A `get` step by subscriber `sid`. -/
def consumeOp (fo : Fanout) (sid : Nat) : Fanout :=
  { fo with subs := updateSub fo.subs sid consumeSub }

/-- The HTTP client disconnects: the generator's `finally` pops the
subscriber from the registry (lines 167-168). -/
def disconnectOp (fo : Fanout) (sid : Nat) : Fanout :=
  { fo with subs := updateSub fo.subs sid (fun s => { s with live := false }) }

/-- Fan-out events: a new subscriber (with queue capacity `Q`), a paced
frame broadcast, one generator `get`, or a client disconnect. -/
inductive FanEv where
  | sub (Q : Nat)
  | bcast (f : List Nat)
  | consume (sid : Nat)
  | disconnect (sid : Nat)
deriving DecidableEq, Repr

/-- Interpret one fan-out event. -/
def fanStep (fo : Fanout) : FanEv → Fanout
  | .sub Q => (subscribeOp fo Q).1
  | .bcast f => broadcast fo f
  | .consume sid => consumeOp fo sid
  | .disconnect sid => disconnectOp fo sid

/-- Interpret a sequence of fan-out events. -/
def fanRun (fo : Fanout) (evs : List FanEv) : Fanout := evs.foldl fanStep fo

/-- The byte frames currently sitting in a queue, in order. -/
def qFrames : List QItem → List (List Nat)
  | [] => []
  | QItem.frame f :: rest => f :: qFrames rest
  | QItem.sentinel :: rest => qFrames rest

/-! Bitrate resolution (`streamer.py` lines 248-270 and
`_infer_kbps_from_title` lines 642-670).  The two `re.search` patterns
are embedded as leftmost-match scanners with the regex engine's
backtracking order: at each position `\d{2,3}` prefers three digits
over two, and `\s*` is maximal-munch (no shorter munch can ever make
the literal `kbps` match).  Python's character classes `\d`, `\w`,
`\s` and `str.lower` are Unicode-aware; they are embedded here
restricted to code points below 128 — where each coincides exactly
with CPython's behaviour — and the theorems characterizing the title
patterns carry an explicit ASCII-title hypothesis (`isAsciiChar`)
marking that domain. -/

/-- Decimal value of an ASCII digit. -/
def digitVal (c : Char) : Nat := c.toNat - 48

/-- The trailing `(?:\D|$)` of the first pattern: end of string or a
non-digit next character. -/
def lookNonDigit : List Char → Bool
  | [] => true
  | c :: _ => !c.isDigit

/-- Anchored attempt of `\((\d\d\d)\)(?:\D|$)`. -/
def paren3 : List Char → Option Nat
  | '(' :: a :: b :: c :: ')' :: rest =>
    if a.isDigit && b.isDigit && c.isDigit && lookNonDigit rest then
      some (100 * digitVal a + 10 * digitVal b + digitVal c)
    else none
  | _ => none

/-- Anchored attempt of `\((\d\d)\)(?:\D|$)`. -/
def paren2 : List Char → Option Nat
  | '(' :: a :: b :: ')' :: rest =>
    if a.isDigit && b.isDigit && lookNonDigit rest then
      some (10 * digitVal a + digitVal b)
    else none
  | _ => none

/-- Anchored attempt of `\((\d{2,3})\)(?:\D|$)`: greedy, so three
digits are preferred. -/
def parenHere (l : List Char) : Option Nat :=
  (paren3 l).orElse (fun _ => paren2 l)

/-- `re.search(r"\((\d{2,3})\)(?:\D|$)", t)`: value of the leftmost
match's group, if any. -/
def searchParen : List Char → Option Nat
  | [] => none
  | c :: rest => (parenHere (c :: rest)).orElse (fun _ => searchParen rest)

/-- Python's regex `\w` restricted to code points below 128, where it
is exactly `[a-zA-Z0-9_]` (the full class is Unicode-aware). -/
def isWordC (c : Char) : Bool := c.isAlphanum || c = '_'

/-- Python's regex `\s` (and `str.isspace`, which `str.strip` uses)
restricted to code points below 128: `[ \t\n\r\x0b\x0c]` plus the
separator controls `\x1c`-`\x1f`. -/
def isSpaceC (c : Char) : Bool :=
  c = ' ' || c = '\t' || c = '\n' || c = '\r' || c = '\x0b' || c = '\x0c'
    || c = '\x1c' || c = '\x1d' || c = '\x1e' || c = '\x1f'

/-- An ASCII code point: the domain on which the embedded character
classes coincide exactly with Python's Unicode-aware ones. -/
def isAsciiChar (c : Char) : Bool := decide (c.toNat < 128)

/-- The literal `kbps`, anchored; returns what follows it. -/
def litKbps : List Char → Option (List Char)
  | 'k' :: 'b' :: 'p' :: 's' :: rest => some rest
  | _ => none

/-- The trailing `\b` after `kbps`: end of string or a non-word next
character. -/
def lookNonWord : List Char → Bool
  | [] => true
  | c :: _ => !isWordC c

/-- The `\s*kbps\b` tail after the digit group. -/
def kbpsTail (l : List Char) : Bool :=
  match litKbps (l.dropWhile isSpaceC) with
  | some rest => lookNonWord rest
  | none => false

/-- Anchored attempt of `(\d\d\d)\s*kbps\b`. -/
def kbps3 : List Char → Option Nat
  | a :: b :: c :: rest =>
    if a.isDigit && b.isDigit && c.isDigit && kbpsTail rest then
      some (100 * digitVal a + 10 * digitVal b + digitVal c)
    else none
  | _ => none

/-- Anchored attempt of `(\d\d)\s*kbps\b`. -/
def kbps2 : List Char → Option Nat
  | a :: b :: rest =>
    if a.isDigit && b.isDigit && kbpsTail rest then
      some (10 * digitVal a + digitVal b)
    else none
  | _ => none

/-- Anchored attempt of `(\d{2,3})\s*kbps\b` (greedy digits). -/
def kbpsHere (l : List Char) : Option Nat :=
  (kbps3 l).orElse (fun _ => kbps2 l)

/-- The leading `\b`: the group's first character is a digit (a word
character), so the boundary holds iff the preceding character — `prev`,
`none` at the string head — is absent or not a word character. -/
def boundaryBefore : Option Char → Bool
  | none => true
  | some p => !isWordC p

/-- `re.search(r"\b(\d{2,3})\s*kbps\b", t)`: value of the leftmost
match's group, if any.  Exact for ASCII input (see `isAsciiChar`). -/
def searchKbps : Option Char → List Char → Option Nat
  | _, [] => none
  | prev, c :: rest =>
    match if boundaryBefore prev then kbpsHere (c :: rest) else none with
    | some v => some v
    | none => searchKbps (some c) rest

/-- The second half of `_infer_kbps_from_title`: the `kbps`-pattern
attempt with its `32 <= val <= 512` acceptance window. -/
def kbpsFallback (t : List Char) : Option Nat :=
  match searchKbps none t with
  | some v => if 32 ≤ v ∧ v ≤ 512 then some v else none
  | none => none

/-- `Streamer._infer_kbps_from_title(title)` (lines 642-670): lowercase
the title; if the leftmost parenthesized 2-3-digit group is in
`[32, 512]` return it, otherwise fall through to the `kbps` pattern
with the same window, otherwise `None`.  Exact for ASCII titles (see
`isAsciiChar`). -/
def infer_kbps_from_title (title : String) : Option Nat :=
  let t := title.data.map Char.toLower
  match searchParen t with
  | some v => if 32 ≤ v ∧ v ≤ 512 then some v else kbpsFallback t
  | none => kbpsFallback t

/-- The bitrate decision for one track; the three fields are what lines
256-270 store into `_track_pace_mode`, `_track_kbps_used` and
`_track_bytes_per_second` (the current-track diagnostics, reported by
`diagnostics()` lines 609-611). -/
structure PaceDecision where
  pace_mode : String
  kbps_used : Option Nat
  bytes_per_second : ℚ
deriving DecidableEq, Repr

/-- Python `max(1.0, q)` (an executable `max` on the rationals). -/
def qmax1 (q : ℚ) : ℚ := if q ≤ 1 then 1 else q

/-- Lines 259-268: the fallback when no exact rate is available —
kbps inferred from the title, else the configured assumed kbps
(`kbps = title_kbps or ...`; the inferred value is never 0, so `or`
is a plain default), then `max(1.0, kbps * 1000 / 8)` bytes/second. -/
def resolvePaceFallback (title : String) (assumed_bitrate_kbps : Nat) : PaceDecision :=
  let titleKbps := infer_kbps_from_title title
  let kbps := titleKbps.getD assumed_bitrate_kbps
  ⟨if titleKbps.isSome then "title_kbps" else "assumed_kbps", some kbps,
    qmax1 ((kbps : ℚ) * 1000 / 8)⟩

/-- Lines 248-270: the once-per-track bitrate resolution.  Exact
byte-rate when both size and duration are known and positive, else the
title/assumed fallback. -/
def resolvePace (byte_size duration_seconds : Option Nat) (title : String)
    (assumed_bitrate_kbps : Nat) : PaceDecision :=
  match byte_size, duration_seconds with
  | some b, some d =>
    if 0 < d ∧ 0 < b then ⟨"duration", none, (b : ℚ) / (d : ℚ)⟩
    else resolvePaceFallback title assumed_bitrate_kbps
  | _, _ => resolvePaceFallback title assumed_bitrate_kbps

/-! Configuration (`src/settings.py`) and `Streamer.__init__`
(`streamer.py` lines 30-82). -/

/-- The `Settings` fields (`settings.py` lines 33-64).  The
`schedule_json` default is the one-slot all-day local schedule; the
telegram fields default per lines 60-64. -/
structure Settings where
  stream_mime_type : String := "audio/mpeg"
  chunk_size : Nat := 65536
  broadcast_chunk_size : Nat := 4096
  assumed_bitrate_kbps : Nat := 192
  subscriber_queue_chunks : Nat := 256
  track_buffer_chunks : Nat := 256
  telegram_download_chunk_size : Nat := 262144
  schedule_json : String
  telegram_api_id : Option Nat := none
  telegram_api_hash : Option String := none
  telegram_bot_token : Option String := none
  telegram_session : String := "/telegram_session/yurets_fm.session"
  telegram_fetch_limit : Nat := 50
deriving DecidableEq, Repr

/-- Every attribute name resolvable on a `Settings` instance: the
pydantic model fields declared in `class Settings` (`settings.py` lines
27-64) and its two methods `telegram` (line 66) and `schedule`
(line 75).  Neither the class nor anything it inherits defines
`schedule_timezone`; pydantic models raise `AttributeError` for any
attribute outside the declared set. -/
def settingsMembers : List String :=
  ["model_config", "stream_mime_type", "chunk_size", "broadcast_chunk_size",
   "assumed_bitrate_kbps", "subscriber_queue_chunks", "track_buffer_chunks",
   "telegram_download_chunk_size", "schedule_json", "telegram_api_id",
   "telegram_api_hash", "telegram_bot_token", "telegram_session",
   "telegram_fetch_limit", "telegram", "schedule"]

/-- Attribute access `settings.<name>`. -/
def settingsGetattr (name : String) : Except PyExc Unit :=
  if name ∈ settingsMembers then .ok () else .error .attributeError

/-- `Streamer.__init__(settings)` (`streamer.py` lines 30-82): stores
the settings, then line 32 evaluates `settings.schedule_timezone()`;
the remaining field initialisation (timezone object, scheduler, source
caches, empty subscriber registry, cleared RNG registry, zeroed
counters) only runs if that attribute access succeeds.  The result
models the constructed engine's mime type, fan-out state and RNG
registry. -/
def streamerInit (s : Settings) : Except PyExc (String × Fanout × Registry) := do
  _ ← settingsGetattr "schedule_timezone"
  .ok (s.stream_mime_type, Fanout.init, ⟨none, []⟩)

/-! The master loop (`Streamer._run_master`, lines 172-373).  One
iteration's slot/source/pick/pipeline work is summarised by its outcome
(normal completion or the exception it raised); the `try/except` frame
of lines 175-373 around it is modelled exactly. -/

/-- The `NowPlaying` record (`src/models/now_playing.py`). -/
structure NowPlayingRec where
  title : String
  source : String
  mime_type : String
  duration_seconds : Option Nat
  position_seconds : Option Nat
deriving DecidableEq, Repr

/-- The master-loop diagnostics and Now-Playing fields the `except`
handler touches. -/
structure MasterState where
  trackStartedAt : Option ℚ
  lastMasterError : Option String
  lastMasterErrorAt : Option ℚ
  nowPlaying : Option NowPlayingRec
deriving DecidableEq, Repr

/-- What the loop does after one iteration: keep looping (after an
`asyncio.sleep` of the given seconds) or terminate. -/
inductive LoopCtl where
  | continueAfter (sleepSeconds : ℚ)
  | stop
deriving DecidableEq, Repr

/-- The inter-track pause, `await asyncio.sleep(0.05)` (line 356). -/
def interTrackPauseS : ℚ := 5 / 100

/-- The error cooldown, `await asyncio.sleep(1.0)` (line 373). -/
def masterErrorCooldownS : ℚ := 1

/-- The error placeholder published into Now-Playing (lines 364-372). -/
def errorPlaceholder (sourceLabel mimeType : String) : NowPlayingRec :=
  ⟨"(ошибка источника)", sourceLabel, mimeType, none, none⟩

/-- The `try/except` frame of one `while True` iteration (lines
175-373): a normal completion sleeps the inter-track pause and loops;
`asyncio.CancelledError` returns; any other exception resets
`_track_started_at`, records `master_error` (+ timestamp `now`) in the
diagnostics fields, publishes the error placeholder, sleeps the
cooldown, and loops. -/
def masterIterationEpilogue (st : MasterState) (sourceLabel mimeType : String)
    (now : ℚ) (body : Except PyExc Unit) : MasterState × LoopCtl :=
  match body with
  | .ok () => (st, .continueAfter interTrackPauseS)
  | .error .cancelled => (st, .stop)
  | .error _ =>
    ({ st with
        trackStartedAt := none,
        lastMasterError := some "master_error",
        lastMasterErrorAt := some now,
        nowPlaying := some (errorPlaceholder sourceLabel mimeType) },
      .continueAfter masterErrorCooldownS)

/-! Read-only previews (`preview_tracks` lines 381-454 and
`queue_preview` lines 456-536).  Each obtains the live generator for
the active/each slot via `_rng_for`, then draws only from
`rng_copy = random.Random(); rng_copy.setstate(live_rng.getstate())` —
in this state-passing model, the copy is the live entry's state value,
advanced locally and never written back into the registry. -/

/-- Python `str.strip()` (whitespace at both ends). -/
def pyStrip (s : String) : String :=
  ⟨(((s.data.dropWhile isSpaceC).reverse).dropWhile isSpaceC).reverse⟩

/-- `DEFAULT_LOCAL_ROOT / key` resolution for local slots
(`streamer.py` lines 206-208 / 406-407 / 477-478): an absolute key is
used as is, a relative one is joined under `/music`. -/
def resolveMusicDir (key : String) : String :=
  if key.startsWith "/" then key else "/music/" ++ key

/-- The process-wide source state behind the cached source instances:
the candidate lists the local and telegram sources would currently
serve (their mime-filtered caches), and whether the telegram session is
enabled. -/
structure SourceEnv where
  telegramEnabled : Bool
  telegramCandidates : String → List TrackRef
  localFiles : String → List TrackRef

/-- Resolve a slot's source instance the way both previews do
(lines 395-413 / 468-487), given a non-empty stripped key. -/
def resolveSource (env : SourceEnv) (slotSource key : String) : Option SourceImpl :=
  if slotSource = "telegram" then
    some (.telegramSrc env.telegramEnabled key (env.telegramCandidates key))
  else if slotSource = "local" then
    some (.localSrc (env.localFiles (resolveMusicDir key)))
  else none

/-- Human-readable message of a raised exception (`str(exc)`). -/
def pyExcStr : PyExc → String
  | .attributeError => "AttributeError"
  | .typeError => "next_track() got an unexpected keyword argument"
  | .runtimeError msg => msg
  | .indexError => "IndexError"
  | .cancelled => "CancelledError"

/-- The preview draw loop (lines 426-435 / 503-513): up to `fuel`
attempts of `next_track(mime_type=..., rng=rng_copy)`, skipping titles
already in `seen`, stopping once `want` titles are collected; an
exception ends the loop and is reported.  Returns the titles, the
error, and the advanced copy and global generators. -/
def previewDraws (src : SourceImpl) (want : Nat) :
    Nat → PyRandom → PyRandom → List String → List String →
    List String × Option String × PyRandom × PyRandom
  | 0, rngCopy, g, _seen, tracks => (tracks, none, rngCopy, g)
  | fuel + 1, rngCopy, g, seen, tracks =>
    match callNextTrackWithRng src rngCopy g with
    | .error e => (tracks, some (pyExcStr e), rngCopy, g)
    | .ok (tr, rng2, g2) =>
      if tr.title ∈ seen then previewDraws src want fuel rng2 g2 seen tracks
      else if want ≤ tracks.length + 1 then (tracks ++ [tr.title], none, rng2, g2)
      else previewDraws src want fuel rng2 g2 (tr.title :: seen) (tracks ++ [tr.title])

/-- Per-slot preview output (tracks and error of lines 440-452). -/
structure PreviewSlotOut where
  tracks : List String
  err : Option String
deriving DecidableEq, Repr

/-- The per-slot body of `preview_tracks` (lines 393-452): strip the
key, resolve the source, fetch the live generator via `_rng_for`
(possibly creating it), and draw from a copy of its state.  `seen0` is
the initial dedup set (empty for `preview_tracks`; the current title
for `queue_preview`). -/
def previewSlot (env : SourceEnv) (reg : Registry) (today : PyDate)
    (g : PyRandom) (count : Nat) (seen0 : List String) (slot : ScheduleSlot) :
    PreviewSlotOut × Registry × PyRandom :=
  let slotKey := pyStrip (slot.key.getD "")
  if slot.source = "telegram" ∨ slot.source = "local" then
    if slotKey = "" then (⟨[], some "missing key"⟩, reg, g)
    else
      let rngKey := if slot.source = "local" then resolveMusicDir slotKey else slotKey
      match resolveSource env slot.source rngKey with
      | none => (⟨[], some ("unknown source: " ++ slot.source)⟩, reg, g)
      | some src =>
        let (liveRng, reg2) := rngFor reg today slot.source rngKey
        let fuel := max (count + 20) (count * 10)
        let (tracks, err, _, g2) := previewDraws src count fuel liveRng g seen0 []
        (⟨tracks, err⟩, reg2, g2)
  else (⟨[], some ("unknown source: " ++ slot.source)⟩, reg, g)

/-- The slot fold of `preview_tracks` (lines 392-454). -/
def previewTracksGo (env : SourceEnv) (today : PyDate) (count : Nat) :
    List ScheduleSlot → Registry → PyRandom →
    List PreviewSlotOut × Registry × PyRandom
  | [], reg, g => ([], reg, g)
  | slot :: rest, reg, g =>
    let (out, reg2, g2) := previewSlot env reg today g count [] slot
    let (outs, reg3, g3) := previewTracksGo env today count rest reg2 g2
    (out :: outs, reg3, g3)

/-- `Streamer.preview_tracks(count_per_slot)` (lines 381-454): the
day-rollover check, then per-slot preview draws from RNG-state copies. -/
def preview_tracks (env : SourceEnv) (slots : List ScheduleSlot)
    (reg : Registry) (today : PyDate) (g : PyRandom) (countPerSlot : Nat) :
    List PreviewSlotOut × Registry × PyRandom :=
  previewTracksGo env today countPerSlot slots (dayCheck reg today) g

/-- `Streamer.queue_preview(count)` (lines 456-536): choose the active
slot, seed the dedup set with the current Now-Playing title (if
non-empty), then preview-draw that one slot from an RNG-state copy. -/
def queue_preview (env : SourceEnv) (slots : List ScheduleSlot) (now : PyTime)
    (reg : Registry) (today : PyDate) (g : PyRandom)
    (currentTitle : Option String) (count : Nat) :
    PreviewSlotOut × Registry × PyRandom :=
  match choose_slot slots now with
  | none => (⟨[], some "schedule is empty"⟩, reg, g)
  | some slot =>
    let seen0 := match currentTitle with
      | some t => if t = "" then [] else [t]
      | none => []
    previewSlot env reg today g count seen0 slot

/-! Theorems settling the claims. -/

/-- The first slot (in list order) satisfying the slot-membership test
is the one `find?` returns, with everything before it failing the test. -/
theorem findSlot_first_match (now : PyTime) :
    ∀ slots : List ScheduleSlot,
      (∃ s ∈ slots, time_in_slot now s.start s.endT = true) →
      ∃ pre s2 post, slots = pre ++ s2 :: post ∧
        slots.find? (fun s => time_in_slot now s.start s.endT) = some s2 ∧
        time_in_slot now s2.start s2.endT = true ∧
        ∀ x ∈ pre, time_in_slot now x.start x.endT = false := by
  intro slots
  induction slots with
  | nil => rintro ⟨s, hs, _⟩; cases hs
  | cons a rest ih =>
    rintro ⟨s, hs, hin⟩
    by_cases ha : time_in_slot now a.start a.endT = true
    · exact ⟨[], a, rest, rfl, List.find?_cons_of_pos _ ha, ha, by simp⟩
    · have hrest : ∃ s ∈ rest, time_in_slot now s.start s.endT = true := by
        rcases List.mem_cons.mp hs with h | h
        · exact absurd (h ▸ hin) ha
        · exact ⟨s, h, hin⟩
      obtain ⟨pre, s2, post, heq, hfind, hs2, hpre⟩ := ih hrest
      refine ⟨a :: pre, s2, post, by simp [heq], ?_, hs2, ?_⟩
      · rw [List.find?_cons_of_neg _ (by simpa using ha)]
        exact hfind
      · intro x hx
        rcases List.mem_cons.mp hx with h | h
        · simpa [h] using ha
        · exact hpre x h

/-- C6: for every slot and time-of-day `t`: with `start < end`, `t` is
in-slot iff `start <= t < end`; with `start > end` (midnight
wraparound), iff `t >= start` or `t < end`; with `start == end`,
always; and `choose_slot` returns the first slot in list order whose
interval contains `t`. -/
theorem C6_slot_membership_and_first_match :
    (∀ current start endT : PyTime,
      (start < endT →
        (time_in_slot current start endT = true ↔ start ≤ current ∧ current < endT))
      ∧ (endT < start →
        (time_in_slot current start endT = true ↔ current ≥ start ∨ current < endT))
      ∧ (start = endT → time_in_slot current start endT = true))
    ∧ (∀ (slots : List ScheduleSlot) (now : PyTime) (s : ScheduleSlot),
        s ∈ slots → time_in_slot now s.start s.endT = true →
        ∃ pre s2 post, slots = pre ++ s2 :: post ∧
          choose_slot slots now = some s2 ∧
          time_in_slot now s2.start s2.endT = true ∧
          ∀ x ∈ pre, time_in_slot now x.start x.endT = false) := by
  constructor
  · intro current start endT
    refine ⟨fun h => ?_, fun h => ?_, fun h => ?_⟩
    · simp [time_in_slot, Nat.ne_of_lt h, h]
    · have h1 : start ≠ endT := (Nat.ne_of_lt h).symm
      have h2 : ¬ start < endT := Nat.lt_asymm h
      simp [time_in_slot, h1, h2]
    · simp [time_in_slot, h]
  · intro slots now s hmem hin
    obtain ⟨pre, s2, post, heq, hfind, hs2, hpre⟩ :=
      findSlot_first_match now slots ⟨s, hmem, hin⟩
    exact ⟨pre, s2, post, heq, by simp [choose_slot, hfind], hs2, hpre⟩

/-- C6 witness: a concrete wraparound slot list where the second slot
matches and is chosen. -/
theorem C6_slot_membership_witness :
    (22 < (23 : PyTime) ∧
      (time_in_slot 22 23 5 = true ↔ 22 ≥ 23 ∨ 22 < 5)) ∧
    ((⟨10, 20, "local", some "/music"⟩ : ScheduleSlot) ∈
        [(⟨0, 1, "local", some "a"⟩ : ScheduleSlot), ⟨10, 20, "local", some "/music"⟩] ∧
      time_in_slot 15 10 20 = true ∧
      ∃ pre s2 post,
        [(⟨0, 1, "local", some "a"⟩ : ScheduleSlot), ⟨10, 20, "local", some "/music"⟩]
          = pre ++ s2 :: post ∧
        choose_slot [⟨0, 1, "local", some "a"⟩, ⟨10, 20, "local", some "/music"⟩] 15
          = some s2 ∧
        time_in_slot 15 s2.start s2.endT = true ∧
        ∀ x ∈ pre, time_in_slot 15 x.start x.endT = false) := by
  refine ⟨⟨by decide, (C6_slot_membership_and_first_match.1 22 23 5).2.1 (by decide)⟩,
    by decide, by decide,
    C6_slot_membership_and_first_match.2
      [⟨0, 1, "local", some "a"⟩, ⟨10, 20, "local", some "/music"⟩] 15
      ⟨10, 20, "local", some "/music"⟩ (by decide) (by decide)⟩

/-- C7: with a non-empty slot list and a time matching no interval,
`choose_slot` returns the first element; it returns `none` iff the slot
list is empty. -/
theorem C7_scheduler_fallback :
    (∀ (slots : List ScheduleSlot) (now : PyTime),
      (∀ s ∈ slots, time_in_slot now s.start s.endT = false) →
      choose_slot slots now = slots.head?)
    ∧ (∀ (slots : List ScheduleSlot) (now : PyTime),
        choose_slot slots now = none ↔ slots = []) := by
  constructor
  · intro slots now hall
    have hfind : slots.find? (fun s => time_in_slot now s.start s.endT) = none := by
      rw [List.find?_eq_none]
      intro x hx
      simp [hall x hx]
    simp [choose_slot, hfind]
  · intro slots now
    cases slots with
    | nil => simp [choose_slot]
    | cons a rest =>
      simp only [choose_slot]
      constructor
      · intro h
        cases hf : List.find? (fun s => time_in_slot now s.start s.endT) (a :: rest) with
        | some s => rw [hf] at h; cases h
        | none => rw [hf] at h; cases h
      · intro h; cases h

/-- C7 witness: a non-empty list and a non-matching time yield the
first slot; the non-empty list yields `some`. -/
theorem C7_scheduler_fallback_witness :
    ((∀ s ∈ [(⟨2, 4, "local", some "a"⟩ : ScheduleSlot), ⟨5, 7, "local", some "b"⟩],
        time_in_slot 9 s.start s.endT = false) ∧
      choose_slot [(⟨2, 4, "local", some "a"⟩ : ScheduleSlot), ⟨5, 7, "local", some "b"⟩] 9
        = [(⟨2, 4, "local", some "a"⟩ : ScheduleSlot), ⟨5, 7, "local", some "b"⟩].head?) ∧
    (choose_slot [] 9 = none ↔ ([] : List ScheduleSlot) = []) :=
  ⟨⟨by decide, C7_scheduler_fallback.1 _ 9 (by decide)⟩, C7_scheduler_fallback.2 [] 9⟩

/-- C1: for every `Settings` value, constructing the `Streamer` raises
`AttributeError`, because `__init__` calls
`settings.schedule_timezone()` and `Settings` defines no attribute of
that name — so the engine is never constructed (and hence never
started). -/
theorem C1_streamer_init_attribute_error :
    (∀ s : Settings, streamerInit s = .error .attributeError) ∧
    "schedule_timezone" ∉ settingsMembers := by
  constructor
  · intro s; rfl
  · decide

/-- The two local library files of C2's failing input. -/
def trA : TrackRef := ⟨"song_a", none, none⟩

/-- Second library file of C2's failing input. -/
def trB : TrackRef := ⟨"song_b", none, none⟩

/-- C2 (code bug): the claim requires `next_track(mimeType, rng)` to
select using only the caller-supplied rng, but `LocalLibrarySource`'s
`next_track` accepts no `rng` at all — the registry-seeded call the
master loop makes raises `TypeError` — and its body draws from the
process-global generator, so with the library `[trA, trB]` two
different global states select different tracks regardless of any
caller rng.  `TelegramChannelSource` (given a caller rng) is, by
contrast, independent of the global state. -/
theorem C2_local_source_ignores_caller_rng :
    (∀ (cache : List TrackRef) (rng g : PyRandom),
        callNextTrackWithRng (SourceImpl.localSrc cache) rng g = .error .typeError)
    ∧ nextTrackAcceptsRng (.localSrc [trA, trB]) = false
    ∧ localNextTrack [trA, trB] ⟨0, 0⟩ = .ok (trB, ⟨0, 1⟩)
    ∧ localNextTrack [trA, trB] ⟨1, 0⟩ = .ok (trA, ⟨1, 1⟩)
    ∧ (∀ (en : Bool) (ch : String) (cands : List TrackRef) (r g g2 : PyRandom),
        (telegramNextTrack en ch cands (some r) g).map (fun x => (x.1, x.2.1)) =
          (telegramNextTrack en ch cands (some r) g2).map (fun x => (x.1, x.2.1))) := by
  refine ⟨fun cache rng g => rfl, rfl, by rfl, by rfl, ?_⟩
  intro en ch cands r g g2
  cases en with
  | false => rfl
  | true =>
    by_cases h1 : ch = ""
    · simp [telegramNextTrack, h1]
    · by_cases h2 : cands.isEmpty
      · simp [telegramNextTrack, h1, h2]
      · simp only [telegramNextTrack, h1, h2, Bool.not_true, Bool.false_eq_true,
          if_false, if_neg h1, if_neg h2]
        cases hc : pyChoice r cands with
        | none => simp
        | some p => rfl

/-- C5: every failure of a master-loop iteration other than the
external cancellation is caught — the loop publishes the error
placeholder into Now-Playing, records `master_error` (with timestamp)
in the diagnostics fields, sleeps the 1-second cooldown (strictly
longer than the 0.05-second inter-track pause) and continues; the loop
stops only on `CancelledError`. -/
theorem C5_master_error_recovery (st : MasterState)
    (sourceLabel mimeType : String) (now : ℚ) :
    (∀ body : Except PyExc Unit,
      (masterIterationEpilogue st sourceLabel mimeType now body).2 = LoopCtl.stop ↔
        body = .error PyExc.cancelled)
    ∧ (∀ e : PyExc, e ≠ PyExc.cancelled →
        masterIterationEpilogue st sourceLabel mimeType now (.error e) =
          ({ st with
              trackStartedAt := none
              lastMasterError := some "master_error"
              lastMasterErrorAt := some now
              nowPlaying := some (errorPlaceholder sourceLabel mimeType) },
            .continueAfter masterErrorCooldownS))
    ∧ interTrackPauseS < masterErrorCooldownS := by
  refine ⟨?_, ?_, by norm_num [interTrackPauseS, masterErrorCooldownS]⟩
  · intro body
    match body with
    | .ok () => simp [masterIterationEpilogue]
    | .error e => cases e <;> simp [masterIterationEpilogue]
  · intro e he
    match e, he with
    | .attributeError, _ => rfl
    | .typeError, _ => rfl
    | .runtimeError m, _ => rfl
    | .indexError, _ => rfl
    | .cancelled, he => exact absurd rfl he

/-- C5 witness: a concrete `RuntimeError` iteration continues with the
cooldown, the placeholder and the diagnostics record. -/
theorem C5_master_error_recovery_witness :
    ((masterIterationEpilogue ⟨some 3, none, none, none⟩ "local" "audio/mpeg" 7
        (.error (.runtimeError "Schedule is empty"))).2 = LoopCtl.stop ↔
      (Except.error (PyExc.runtimeError "Schedule is empty") : Except PyExc Unit) =
        .error PyExc.cancelled) ∧
    (PyExc.runtimeError "Schedule is empty" ≠ PyExc.cancelled ∧
      masterIterationEpilogue ⟨some 3, none, none, none⟩ "local" "audio/mpeg" 7
          (.error (.runtimeError "Schedule is empty")) =
        (⟨none, some "master_error", some 7,
            some (errorPlaceholder "local" "audio/mpeg")⟩,
          .continueAfter masterErrorCooldownS)) :=
  ⟨(C5_master_error_recovery ⟨some 3, none, none, none⟩ "local" "audio/mpeg" 7).1 _,
    by decide,
    (C5_master_error_recovery ⟨some 3, none, none, none⟩ "local" "audio/mpeg" 7).2.1
      _ (by decide)⟩

/-- `qFrames` distributes over append. -/
theorem qFrames_append (a b : List QItem) :
    qFrames (a ++ b) = qFrames a ++ qFrames b := by
  induction a with
  | nil => rfl
  | cons i rest ih => cases i <;> simp [qFrames, ih]

/-- The delivery invariant for one subscriber: while it is registered,
what its generator has yielded followed by what still sits in its queue
is exactly the suffix of the broadcast log that started when it joined
(and no sentinel is in a registered subscriber's queue). -/
def SubGood (log : List (List Nat)) (s : Subscriber) : Prop :=
  s.live = true →
    s.received ++ qFrames s.items = log.drop s.joinIdx ∧
    s.joinIdx ≤ log.length ∧
    ∀ i ∈ s.items, i ≠ QItem.sentinel

/-- The fan-out invariant: every subscriber satisfies `SubGood`. -/
def FanInv (fo : Fanout) : Prop := ∀ p ∈ fo.subs, SubGood fo.log p.2

/-- Broadcasting one frame preserves the per-subscriber invariant. -/
theorem subGood_deliver (log : List (List Nat)) (c : List Nat) (s : Subscriber)
    (h : SubGood log s) : SubGood (log ++ [c]) (deliverOne c s).1 := by
  unfold deliverOne
  by_cases hl : s.live = true
  · by_cases hf : queueFull s = true
    · simp only [hl, Bool.not_true, Bool.false_eq_true, if_false, hf, if_true]
      intro habs; cases habs
    · simp only [hl, Bool.not_true, Bool.false_eq_true, if_false, hf, if_true]
      intro _
      obtain ⟨h1, h2, h3⟩ := h hl
      refine ⟨?_, by simp; omega, ?_⟩
      · rw [qFrames_append, List.drop_append_of_le_length h2,
          ← List.append_assoc, h1]
        rfl
      · intro i hi
        rcases List.mem_append.mp hi with hia | hib
        · exact h3 i hia
        · simp only [List.mem_singleton] at hib
          subst hib; simp
  · simp only [Bool.not_eq_true] at hl
    simp only [hl, Bool.not_false, if_true]
    intro habs
    rw [hl] at habs
    cases habs

/-- A generator `get` step preserves the per-subscriber invariant. -/
theorem subGood_consume (log : List (List Nat)) (s : Subscriber)
    (h : SubGood log s) : SubGood log (consumeSub s) := by
  rcases hitems : s.items with _ | ⟨i, rest⟩
  · simpa [consumeSub, hitems] using h
  · cases i with
    | frame f =>
      simp only [consumeSub, hitems]
      intro hlive
      obtain ⟨h1, h2, h3⟩ := h hlive
      rw [hitems] at h1 h3
      refine ⟨?_, h2, fun j hj => h3 j (by simp [hj])⟩
      simpa [qFrames, List.append_assoc] using h1
    | sentinel =>
      simp only [consumeSub, hitems]
      intro habs; cases habs

/-- Every fan-out event preserves the invariant. -/
theorem fanInv_step (fo : Fanout) (ev : FanEv) (h : FanInv fo) :
    FanInv (fanStep fo ev) := by
  cases ev with
  | sub Q =>
    intro p hp
    simp only [fanStep, subscribeOp, List.mem_append, List.mem_singleton] at hp
    rcases hp with hp | hp
    · exact h p hp
    · subst hp
      intro _
      refine ⟨?_, ?_, by simp⟩
      · simp [fanStep, subscribeOp, qFrames, List.drop_length]
      · simp [fanStep, subscribeOp]
  | bcast f =>
    intro p hp
    simp only [fanStep, broadcast, List.map_map, List.mem_map] at hp
    obtain ⟨q, hq, rfl⟩ := hp
    exact subGood_deliver _ _ _ (h q hq)
  | consume sid =>
    intro p hp
    simp only [fanStep, consumeOp, updateSub, List.mem_map] at hp
    obtain ⟨q, hq, rfl⟩ := hp
    by_cases hc : q.1 = sid
    · simp only [hc, if_true]
      exact subGood_consume _ _ (h q hq)
    · simp only [hc, if_false]
      exact h q hq
  | disconnect sid =>
    intro p hp
    simp only [fanStep, disconnectOp, updateSub, List.mem_map] at hp
    obtain ⟨q, hq, rfl⟩ := hp
    by_cases hc : q.1 = sid
    · simp only [hc, if_true]
      intro habs; cases habs
    · simp only [hc, if_false]
      exact h q hq

/-- Any event sequence preserves the invariant. -/
theorem fanInv_run (evs : List FanEv) : ∀ fo : Fanout, FanInv fo →
    FanInv (fanRun fo evs) := by
  induction evs with
  | nil => intro fo h; exact h
  | cons e rest ih =>
    intro fo h
    exact ih (fanStep fo e) (fanInv_step fo e h)

/-- The initial fan-out state satisfies the invariant. -/
theorem fanInv_init : FanInv Fanout.init := by
  intro p hp
  simp [Fanout.init] at hp

/-- C4: for any event trace, a subscriber still registered has yielded
exactly the frames broadcast since it joined, in broadcast order, minus
the ordered tail still queued — no duplicates, gaps, reordering or
coalescing — and nothing broadcast before it joined (no backfill). -/
theorem C4_frame_ordering_no_backfill (evs : List FanEv) (sid : Nat)
    (s : Subscriber) (hmem : (sid, s) ∈ (fanRun Fanout.init evs).subs)
    (hlive : s.live = true) :
    s.received ++ qFrames s.items = (fanRun Fanout.init evs).log.drop s.joinIdx ∧
    s.joinIdx ≤ (fanRun Fanout.init evs).log.length := by
  obtain ⟨h1, h2, _⟩ := fanInv_run evs Fanout.init fanInv_init (sid, s) hmem hlive
  exact ⟨h1, h2⟩

/-- C4 witness: subscriber 1 joins, receives `[7]`, consumes it, then
receives `[8]`; yielded-plus-queued is exactly the log since join. -/
theorem C4_frame_ordering_witness :
    ((1, (⟨2, [QItem.frame [8]], true, 0, [[7]]⟩ : Subscriber)) ∈
        (fanRun Fanout.init
          [FanEv.sub 2, FanEv.bcast [7], FanEv.consume 1, FanEv.bcast [8]]).subs ∧
      (⟨2, [QItem.frame [8]], true, 0, [[7]]⟩ : Subscriber).live = true) ∧
    ([[7]] ++ qFrames [QItem.frame [8]] =
        (fanRun Fanout.init
          [FanEv.sub 2, FanEv.bcast [7], FanEv.consume 1, FanEv.bcast [8]]).log.drop 0 ∧
      0 ≤ (fanRun Fanout.init
          [FanEv.sub 2, FanEv.bcast [7], FanEv.consume 1, FanEv.bcast [8]]).log.length) :=
  ⟨⟨by decide, rfl⟩,
    C4_frame_ordering_no_backfill
      [FanEv.sub 2, FanEv.bcast [7], FanEv.consume 1, FanEv.bcast [8]] 1
      ⟨2, [QItem.frame [8]], true, 0, [[7]]⟩ (by decide) rfl⟩

/-- Broadcasting a run of frames to a single live subscriber whose
capacity absorbs them all appends them, in order, without any drop or
eviction. -/
theorem single_live_bcast (fs : List (List Nat)) :
    ∀ (fo : Fanout) (sid cap joinIdx : Nat) (items : List QItem)
      (received : List (List Nat)),
      fo.subs = [(sid, ⟨cap, items, true, joinIdx, received⟩)] →
      items.length + fs.length ≤ cap →
      (fanRun fo (fs.map FanEv.bcast)).subs
          = [(sid, ⟨cap, items ++ fs.map QItem.frame, true, joinIdx, received⟩)]
        ∧ (fanRun fo (fs.map FanEv.bcast)).droppedTotal = fo.droppedTotal := by
  induction fs with
  | nil =>
    intro fo sid cap joinIdx items received hsubs _
    simpa [fanRun] using hsubs
  | cons f fs ih =>
    intro fo sid cap joinIdx items received hsubs hcap
    have hqf : queueFull ⟨cap, items, true, joinIdx, received⟩ = false := by
      simp only [queueFull, decide_eq_false_iff_not, not_and, not_le]
      intro _
      simp only [List.length_cons] at hcap
      omega
    have hstep : (fanStep fo (FanEv.bcast f)).subs
          = [(sid, ⟨cap, items ++ [QItem.frame f], true, joinIdx, received⟩)]
        ∧ (fanStep fo (FanEv.bcast f)).droppedTotal = fo.droppedTotal := by
      constructor
      · simp [fanStep, broadcast, hsubs, deliverOne, hqf]
      · simp [fanStep, broadcast, hsubs, deliverOne, hqf]
    have hrec := ih (fanStep fo (FanEv.bcast f)) sid cap joinIdx
      (items ++ [QItem.frame f]) received hstep.1
      (by simp only [List.length_append, List.length_cons, List.length_nil] at hcap ⊢; omega)
    simp only [List.map_cons, fanRun, List.foldl_cons] at hrec ⊢
    refine ⟨?_, hrec.2.trans hstep.2⟩
    rw [hrec.1]
    simp [List.append_assoc]

/-- Broadcasting any run of frames past an already-evicted (sole)
subscriber leaves its entry and the dropped counter untouched. -/
theorem single_dead_bcast (fs : List (List Nat)) :
    ∀ (fo : Fanout) (sid cap joinIdx : Nat) (items : List QItem)
      (received : List (List Nat)),
      fo.subs = [(sid, ⟨cap, items, false, joinIdx, received⟩)] →
      (fanRun fo (fs.map FanEv.bcast)).subs
          = [(sid, ⟨cap, items, false, joinIdx, received⟩)]
        ∧ (fanRun fo (fs.map FanEv.bcast)).droppedTotal = fo.droppedTotal := by
  induction fs with
  | nil =>
    intro fo sid cap joinIdx items received hsubs
    simpa [fanRun] using hsubs
  | cons f fs ih =>
    intro fo sid cap joinIdx items received hsubs
    have hstep : (fanStep fo (FanEv.bcast f)).subs
          = [(sid, ⟨cap, items, false, joinIdx, received⟩)]
        ∧ (fanStep fo (FanEv.bcast f)).droppedTotal = fo.droppedTotal := by
      constructor
      · simp [fanStep, broadcast, hsubs, deliverOne]
      · simp [fanStep, broadcast, hsubs, deliverOne]
    have hrec := ih (fanStep fo (FanEv.bcast f)) sid cap joinIdx items received hstep.1
    simp only [List.map_cons, fanRun, List.foldl_cons] at hrec ⊢
    exact ⟨hrec.1, hrec.2.trans hstep.2⟩

/-- C3: on a broadcast, a registered subscriber with queue room gets
the whole frame appended (no individual frame is ever dropped for a
subscriber that stays registered); one with a full queue is evicted
wholesale (drained queue, sentinel, deregistered); and a subscriber of
capacity `Q` that consumes nothing survives `Q` broadcasts, is evicted
exactly once on the `(Q+1)`-th, and stays evicted — with `dropped`
counted exactly once — for every broadcast after that. -/
theorem C3_backpressure_eviction :
    (∀ (fo : Fanout) (c : List Nat) (sid : Nat) (s : Subscriber),
      (sid, s) ∈ fo.subs → s.live = true → queueFull s = false →
      (sid, { s with items := s.items ++ [QItem.frame c] }) ∈ (broadcast fo c).subs)
    ∧ (∀ (fo : Fanout) (c : List Nat) (sid : Nat) (s : Subscriber),
        (sid, s) ∈ fo.subs → s.live = true → queueFull s = true →
        (sid, { s with live := false, items := [QItem.sentinel] })
          ∈ (broadcast fo c).subs)
    ∧ (∀ (Q : Nat) (fs : List (List Nat)) (extra : List Nat)
        (more : List (List Nat)), 0 < Q → fs.length = Q →
        (fanRun Fanout.init (FanEv.sub Q :: fs.map FanEv.bcast)).subs
            = [(1, ⟨Q, fs.map QItem.frame, true, 0, []⟩)]
          ∧ (fanRun Fanout.init (FanEv.sub Q :: fs.map FanEv.bcast)).droppedTotal = 0
          ∧ (fanStep (fanRun Fanout.init (FanEv.sub Q :: fs.map FanEv.bcast))
                (FanEv.bcast extra)).subs
              = [(1, ⟨Q, [QItem.sentinel], false, 0, []⟩)]
          ∧ (fanStep (fanRun Fanout.init (FanEv.sub Q :: fs.map FanEv.bcast))
                (FanEv.bcast extra)).droppedTotal = 1
          ∧ (fanRun (fanStep (fanRun Fanout.init (FanEv.sub Q :: fs.map FanEv.bcast))
                (FanEv.bcast extra)) (more.map FanEv.bcast)).subs
              = [(1, ⟨Q, [QItem.sentinel], false, 0, []⟩)]
          ∧ (fanRun (fanStep (fanRun Fanout.init (FanEv.sub Q :: fs.map FanEv.bcast))
                (FanEv.bcast extra)) (more.map FanEv.bcast)).droppedTotal = 1) := by
  refine ⟨?_, ?_, ?_⟩
  · intro fo c sid s hmem hlive hqf
    simp only [broadcast, List.map_map, List.mem_map]
    refine ⟨(sid, s), hmem, ?_⟩
    simp [deliverOne, hlive, hqf]
  · intro fo c sid s hmem hlive hqf
    simp only [broadcast, List.map_map, List.mem_map]
    refine ⟨(sid, s), hmem, ?_⟩
    simp [deliverOne, hlive, hqf]
  · intro Q fs extra more hQ hlen
    have hsub0 : (fanStep Fanout.init (FanEv.sub Q)).subs
        = [(1, ⟨Q, [], true, 0, []⟩)] := by
      simp [fanStep, subscribeOp, Fanout.init]
    have h1 := single_live_bcast fs (fanStep Fanout.init (FanEv.sub Q)) 1 Q 0 [] []
      hsub0 (by simp [hlen])
    have hrun1 : fanRun Fanout.init (FanEv.sub Q :: fs.map FanEv.bcast)
        = fanRun (fanStep Fanout.init (FanEv.sub Q)) (fs.map FanEv.bcast) := by
      simp [fanRun]
    have hdrop0 : (fanStep Fanout.init (FanEv.sub Q)).droppedTotal = 0 := by
      simp [fanStep, subscribeOp, Fanout.init]
    have hsubs1 : (fanRun Fanout.init (FanEv.sub Q :: fs.map FanEv.bcast)).subs
        = [(1, ⟨Q, fs.map QItem.frame, true, 0, []⟩)] := by
      rw [hrun1]
      simpa using h1.1
    have hdrop1 : (fanRun Fanout.init (FanEv.sub Q :: fs.map FanEv.bcast)).droppedTotal
        = 0 := by
      rw [hrun1, h1.2, hdrop0]
    have hqf : queueFull ⟨Q, fs.map QItem.frame, true, 0, []⟩ = true := by
      simp [queueFull, hlen, hQ]
    have hsubs2 : (fanStep (fanRun Fanout.init (FanEv.sub Q :: fs.map FanEv.bcast))
          (FanEv.bcast extra)).subs = [(1, ⟨Q, [QItem.sentinel], false, 0, []⟩)] := by
      simp [fanStep, broadcast, hsubs1, deliverOne, hqf]
    have hdrop2 : (fanStep (fanRun Fanout.init (FanEv.sub Q :: fs.map FanEv.bcast))
          (FanEv.bcast extra)).droppedTotal = 1 := by
      simp [fanStep, broadcast, hsubs1, deliverOne, hqf, hdrop1]
    have h3 := single_dead_bcast more
      (fanStep (fanRun Fanout.init (FanEv.sub Q :: fs.map FanEv.bcast))
        (FanEv.bcast extra)) 1 Q 0 [QItem.sentinel] [] hsubs2
    exact ⟨hsubs1, hdrop1, hsubs2, hdrop2, h3.1, h3.2.trans hdrop2⟩

/-- C3 witness: capacity 2, three broadcasts, no consumption — alive
after two, evicted exactly once on the third, untouched afterwards. -/
theorem C3_backpressure_eviction_witness :
    ((1, (⟨2, [], true, 0, []⟩ : Subscriber)) ∈ (subscribeOp Fanout.init 2).1.subs ∧
      queueFull (⟨2, [], true, 0, []⟩ : Subscriber) = false ∧
      (1, (⟨2, [QItem.frame [5]], true, 0, []⟩ : Subscriber)) ∈
        (broadcast (subscribeOp Fanout.init 2).1 [5]).subs) ∧
    (0 < 2 ∧ [[5], [6]].length = 2 ∧
      (fanRun Fanout.init (FanEv.sub 2 :: [[5], [6]].map FanEv.bcast)).subs
          = [(1, ⟨2, [[5], [6]].map QItem.frame, true, 0, []⟩)] ∧
      (fanStep (fanRun Fanout.init (FanEv.sub 2 :: [[5], [6]].map FanEv.bcast))
          (FanEv.bcast [7])).subs = [(1, ⟨2, [QItem.sentinel], false, 0, []⟩)] ∧
      (fanRun (fanStep (fanRun Fanout.init (FanEv.sub 2 :: [[5], [6]].map FanEv.bcast))
          (FanEv.bcast [7])) ([[8]].map FanEv.bcast)).droppedTotal = 1) := by
  have h3 := C3_backpressure_eviction.2.2 2 [[5], [6]] [7] [[8]] (by decide) (by decide)
  refine ⟨⟨by decide, by decide, ?_⟩, by decide, by decide, h3.1, h3.2.2.1, h3.2.2.2.2.2⟩
  have h1 := C3_backpressure_eviction.1 (subscribeOp Fanout.init 2).1 [5] 1
    ⟨2, [], true, 0, []⟩ (by decide) rfl (by decide)
  simpa using h1

/-- C8 counterexample: the title `"(700) song (320)"` contains the
numeric pattern `(320)` with `32 <= 320 <= 512`, yet the resolved pace
(with unknown size/duration) is the assumed 192 kbps, not 320 kbps —
because the code only examines the *leftmost* parenthesized group,
`(700)`, and `700` is out of range. -/
theorem C8_counterexample_leftmost_paren :
    "(700) song (320)".data = "(700) song ".data ++ "(320)".data ∧
    (32 ≤ 320 ∧ 320 ≤ 512) ∧
    resolvePace none none "(700) song (320)" 192 =
      ⟨"assumed_kbps", some 192, 24000⟩ ∧
    (resolvePace none none "(700) song (320)" 192).kbps_used ≠ some 320 := by
  have h : infer_kbps_from_title "(700) song (320)" = none := by decide
  refine ⟨by decide, by decide, ?_, ?_⟩
  · simp only [resolvePace, resolvePaceFallback, h, Option.getD, Option.isSome,
      if_false, qmax1]
    norm_num
  · simp [resolvePace, resolvePaceFallback, h]

/-- C8 (amended): the pacing rate is resolved once per track in this
priority order — (a) with byte size and duration both known and
positive, exactly `byteSize / durationSeconds`; (b) otherwise the
title is lowercased and only the *leftmost* parenthesized 2-3-digit
group (followed by a non-digit or the end) is examined, its value
used iff it lies in `[32, 512]`; when there is no such group, or it is
out of range, only the leftmost word-bounded `N kbps` match is
examined, its value used iff in `[32, 512]`; (c) in every remaining
case (no match at all, or the examined match out of range) the
configured assumed kbps is used — the chosen mode and value being
recorded in the current-track diagnostics fields the decision carries.
The title-pattern characterization is stated for ASCII titles, the
domain on which the embedded character classes coincide exactly with
Python's Unicode-aware `\d`, `\w`, `\s` and `str.lower`. -/
theorem C8_bitrate_resolution (b d : Option Nat) (title : String) (assumed : Nat) :
    (∀ bv dv : Nat, b = some bv → d = some dv → 0 < bv → 0 < dv →
      resolvePace b d title assumed = ⟨"duration", none, (bv : ℚ) / (dv : ℚ)⟩)
    ∧ ((b = none ∨ d = none ∨ b = some 0 ∨ d = some 0) →
        resolvePace b d title assumed = resolvePaceFallback title assumed)
    ∧ (∀ v : Nat, infer_kbps_from_title title = some v →
        resolvePaceFallback title assumed =
          ⟨"title_kbps", some v, qmax1 ((v : ℚ) * 1000 / 8)⟩)
    ∧ (infer_kbps_from_title title = none →
        resolvePaceFallback title assumed =
          ⟨"assumed_kbps", some assumed, qmax1 ((assumed : ℚ) * 1000 / 8)⟩)
    ∧ (title.data.all isAsciiChar = true →
        (∀ v : Nat, searchParen (title.data.map Char.toLower) = some v →
          32 ≤ v → v ≤ 512 → infer_kbps_from_title title = some v)
        ∧ (∀ v : Nat, searchParen (title.data.map Char.toLower) = some v →
            ¬(32 ≤ v ∧ v ≤ 512) →
            (∀ w : Nat, searchKbps none (title.data.map Char.toLower) = some w →
              32 ≤ w → w ≤ 512 → infer_kbps_from_title title = some w)
            ∧ (∀ w : Nat, searchKbps none (title.data.map Char.toLower) = some w →
                ¬(32 ≤ w ∧ w ≤ 512) → infer_kbps_from_title title = none)
            ∧ (searchKbps none (title.data.map Char.toLower) = none →
                infer_kbps_from_title title = none))
        ∧ (searchParen (title.data.map Char.toLower) = none →
            (∀ w : Nat, searchKbps none (title.data.map Char.toLower) = some w →
              32 ≤ w → w ≤ 512 → infer_kbps_from_title title = some w)
            ∧ (∀ w : Nat, searchKbps none (title.data.map Char.toLower) = some w →
                ¬(32 ≤ w ∧ w ≤ 512) → infer_kbps_from_title title = none)
            ∧ (searchKbps none (title.data.map Char.toLower) = none →
                infer_kbps_from_title title = none))) := by
  refine ⟨?_, ?_, ?_, ?_, ?_⟩
  · intro bv dv hb hd hbp hdp
    subst hb; subst hd
    simp [resolvePace, hbp, hdp]
  · intro hcase
    rcases hb : b with _ | bv <;> rcases hd : d with _ | dv
    · rfl
    · rfl
    · rfl
    · rcases hcase with h | h | h | h
      · rw [hb] at h; cases h
      · rw [hd] at h; cases h
      · rw [hb] at h
        injection h with h
        simp [resolvePace, h]
      · rw [hd] at h
        injection h with h
        simp [resolvePace, h]
  · intro v hv
    simp [resolvePaceFallback, hv]
  · intro hv
    simp [resolvePaceFallback, hv]
  · intro _hascii
    refine ⟨?_, ?_, ?_⟩
    · intro v hp h32 h512
      simp [infer_kbps_from_title, hp, h32, h512]
    · intro v hp hrange
      refine ⟨?_, ?_, ?_⟩
      · intro w hk h32 h512
        simp only [infer_kbps_from_title, hp, kbpsFallback, hk]
        rw [if_neg hrange, if_pos ⟨h32, h512⟩]
      · intro w hk hwrange
        simp only [infer_kbps_from_title, hp, kbpsFallback, hk]
        rw [if_neg hrange, if_neg hwrange]
      · intro hk
        simp only [infer_kbps_from_title, hp, kbpsFallback, hk]
        rw [if_neg hrange]
    · intro hp
      refine ⟨?_, ?_, ?_⟩
      · intro w hk h32 h512
        simp only [infer_kbps_from_title, hp, kbpsFallback, hk]
        rw [if_pos ⟨h32, h512⟩]
      · intro w hk hwrange
        simp only [infer_kbps_from_title, hp, kbpsFallback, hk]
        rw [if_neg hwrange]
      · intro hk
        simp [infer_kbps_from_title, hp, kbpsFallback, hk]

/-- C8 witness: concrete ASCII tracks exercising (a) the exact branch,
(b) both title branches — an in-range leftmost parenthesized group,
and an in-range `N kbps` match with no parenthesized group at all —
and (c) the fall-through to the assumed rate when the only `kbps`
match is out of range. -/
theorem C8_bitrate_resolution_witness :
    ((some 2000000 : Option Nat) = some 2000000 ∧ (some 100 : Option Nat) = some 100 ∧
      0 < 2000000 ∧ 0 < 100 ∧
      resolvePace (some 2000000) (some 100) "x" 192 =
        ⟨"duration", none, (2000000 : ℚ) / (100 : ℚ)⟩) ∧
    ("Song (320).mp3".data.all isAsciiChar = true ∧
      searchParen ("Song (320).mp3".data.map Char.toLower) = some 320 ∧
      infer_kbps_from_title "Song (320).mp3" = some 320) ∧
    ("Song 320 kbps".data.all isAsciiChar = true ∧
      searchParen ("Song 320 kbps".data.map Char.toLower) = none ∧
      searchKbps none ("Song 320 kbps".data.map Char.toLower) = some 320 ∧
      infer_kbps_from_title "Song 320 kbps" = some 320) ∧
    ("700kbps mix".data.all isAsciiChar = true ∧
      searchParen ("700kbps mix".data.map Char.toLower) = none ∧
      searchKbps none ("700kbps mix".data.map Char.toLower) = some 700 ∧
      ¬(32 ≤ 700 ∧ 700 ≤ 512) ∧
      infer_kbps_from_title "700kbps mix" = none ∧
      resolvePaceFallback "700kbps mix" 192 =
        ⟨"assumed_kbps", some 192, qmax1 ((192 : ℚ) * 1000 / 8)⟩) :=
  ⟨⟨rfl, rfl, by decide, by decide,
      (C8_bitrate_resolution (some 2000000) (some 100) "x" 192).1 2000000 100 rfl rfl
        (by decide) (by decide)⟩,
    ⟨by decide, by decide,
      ((C8_bitrate_resolution none none "Song (320).mp3" 192).2.2.2.2 (by decide)).1
        320 (by decide) (by decide) (by decide)⟩,
    ⟨by decide, by decide, by decide,
      (((C8_bitrate_resolution none none "Song 320 kbps" 192).2.2.2.2
          (by decide)).2.2 (by decide)).1 320 (by decide) (by decide) (by decide)⟩,
    ⟨by decide, by decide, by decide, by decide,
      (((C8_bitrate_resolution none none "700kbps mix" 192).2.2.2.2
          (by decide)).2.2 (by decide)).2.1 700 (by decide) (by decide),
      (C8_bitrate_resolution none none "700kbps mix" 192).2.2.2.1 (by decide)⟩⟩

/-- A lookup that succeeds still succeeds, unchanged, after appending
entries. -/
theorem lookupEntry_append_some (k : String × String)
    (es l : List ((String × String) × PyRandom)) (r : PyRandom)
    (h : lookupEntry k es = some r) : lookupEntry k (es ++ l) = some r := by
  induction es with
  | nil => cases h
  | cons e rest ih =>
    obtain ⟨k2, r2⟩ := e
    by_cases hk : k2 = k
    · simpa [lookupEntry, hk] using h
    · rw [List.cons_append]
      simp only [lookupEntry, hk, if_false] at h ⊢
      exact ih h

/-- `_rng_for` never modifies an existing registry entry. -/
theorem lookupEntry_rngFor (reg : Registry) (today : PyDate)
    (slotSource key : String) (k : String × String) (r : PyRandom)
    (h : lookupEntry k reg.entries = some r) :
    lookupEntry k (rngFor reg today slotSource key).2.entries = some r := by
  unfold rngFor
  cases hl : lookupEntry (slotSource, key) reg.entries with
  | some r2 => simpa [hl] using h
  | none =>
    simp only [hl]
    exact lookupEntry_append_some _ _ _ _ h

/-- One preview slot never modifies an existing registry entry. -/
theorem lookupEntry_previewSlot (env : SourceEnv) (reg : Registry)
    (today : PyDate) (g : PyRandom) (count : Nat) (seen0 : List String)
    (slot : ScheduleSlot) (k : String × String) (r : PyRandom)
    (h : lookupEntry k reg.entries = some r) :
    lookupEntry k (previewSlot env reg today g count seen0 slot).2.1.entries
      = some r := by
  unfold previewSlot
  by_cases hsrc : slot.source = "telegram" ∨ slot.source = "local"
  · simp only [hsrc, if_true]
    by_cases hkey : pyStrip (slot.key.getD "") = ""
    · simpa [hkey] using h
    · simp only [hkey, if_false]
      cases hres : resolveSource env slot.source
          (if slot.source = "local" then resolveMusicDir (pyStrip (slot.key.getD ""))
           else pyStrip (slot.key.getD "")) with
      | none => simpa [hres] using h
      | some src =>
        simp only [hres]
        exact lookupEntry_rngFor reg today _ _ k r h
  · simpa [hsrc] using h

/-- The slot fold of `preview_tracks` never modifies an existing
registry entry. -/
theorem lookupEntry_previewGo (env : SourceEnv) (today : PyDate) (count : Nat) :
    ∀ (slots : List ScheduleSlot) (reg : Registry) (g : PyRandom)
      (k : String × String) (r : PyRandom),
      lookupEntry k reg.entries = some r →
      lookupEntry k (previewTracksGo env today count slots reg g).2.1.entries
        = some r := by
  intro slots
  induction slots with
  | nil => intro reg g k r h; simpa [previewTracksGo] using h
  | cons slot rest ih =>
    intro reg g k r h
    simp only [previewTracksGo]
    exact ih _ _ k r (lookupEntry_previewSlot env reg today g count [] slot k r h)

/-- C9: `preview_tracks` and `queue_preview` draw only from copies of
the live RNG states — after any preview, every pre-existing registry
entry (its seed *and* draw position, hence its entire future draw
sequence) is exactly what it was before. -/
theorem C9_preview_preserves_live_rng (env : SourceEnv)
    (slots : List ScheduleSlot) (reg : Registry) (today : PyDate)
    (g : PyRandom) (count : Nat) (now : PyTime) (currentTitle : Option String)
    (k : String × String) (r : PyRandom)
    (hday : reg.currentDay = some today)
    (hlook : lookupEntry k reg.entries = some r) :
    lookupEntry k (preview_tracks env slots reg today g count).2.1.entries
        = some r ∧
    lookupEntry k
        (queue_preview env slots now reg today g currentTitle count).2.1.entries
      = some r := by
  constructor
  · unfold preview_tracks
    have hd : dayCheck reg today = reg := by simp [dayCheck, hday]
    rw [hd]
    exact lookupEntry_previewGo env today count slots reg g k r hlook
  · unfold queue_preview
    cases hc : choose_slot slots now with
    | none => simpa using hlook
    | some slot =>
      simp only []
      exact lookupEntry_previewSlot env reg today g count _ slot k r hlook

/-- The C9 witness environment: an enabled telegram channel with two
candidate tracks. -/
def c9env : SourceEnv :=
  ⟨true, fun _ => [⟨"t1", none, none⟩, ⟨"t2", none, none⟩], fun _ => []⟩

/-- The C9 witness registry: one live entry, mid-sequence. -/
def c9reg : Registry := ⟨some ⟨2026, 10, 12⟩, [(("telegram", "chan"), ⟨42, 5⟩)]⟩

/-- The C9 witness schedule. -/
def c9slots : List ScheduleSlot := [⟨0, 0, "telegram", some "chan"⟩]

/-- C9 witness: previewing two upcoming tracks leaves the live entry's
state `{seed 42, pos 5}` untouched in the registry. -/
theorem C9_preview_preserves_live_rng_witness :
    (c9reg.currentDay = some ⟨2026, 10, 12⟩ ∧
      lookupEntry ("telegram", "chan") c9reg.entries = some ⟨42, 5⟩) ∧
    lookupEntry ("telegram", "chan")
        (preview_tracks c9env c9slots c9reg ⟨2026, 10, 12⟩ ⟨0, 0⟩ 2).2.1.entries
      = some ⟨42, 5⟩ ∧
    lookupEntry ("telegram", "chan")
        (queue_preview c9env c9slots 3 c9reg ⟨2026, 10, 12⟩ ⟨0, 0⟩
          (some "cur") 2).2.1.entries
      = some ⟨42, 5⟩ :=
  ⟨⟨rfl, rfl⟩,
    (C9_preview_preserves_live_rng c9env c9slots c9reg ⟨2026, 10, 12⟩ ⟨0, 0⟩ 2 3
      (some "cur") ("telegram", "chan") ⟨42, 5⟩ rfl rfl).1,
    (C9_preview_preserves_live_rng c9env c9slots c9reg ⟨2026, 10, 12⟩ ⟨0, 0⟩ 2 3
      (some "cur") ("telegram", "chan") ⟨42, 5⟩ rfl rfl).2⟩

/-- `isoformat` is injective on valid dates (fixed-width, zero-padded
decimal fields). -/
theorem isoBytes_inj (d1 d2 : PyDate) (h1 : d1.valid) (h2 : d2.valid)
    (h : isoBytes d1 = isoBytes d2) : d1 = d2 := by
  obtain ⟨y1, m1, dd1⟩ := d1
  obtain ⟨y2, m2, dd2⟩ := d2
  obtain ⟨ha1, ha2, ha3, ha4, ha5, ha6⟩ := h1
  obtain ⟨hb1, hb2, hb3, hb4, hb5, hb6⟩ := h2
  simp only [isoBytes, List.cons.injEq, and_true] at h
  simp only [PyDate.mk.injEq]
  dsimp only at h ha1 ha2 ha3 ha4 ha5 ha6 hb1 hb2 hb3 hb4 hb5 hb6
  omega

/-- `isoformat` produces ten bytes. -/
theorem isoBytes_length (d : PyDate) : (isoBytes d).length = 10 := rfl

/-- C10: on the day change from `D` to `D2`, the check clears every
registry entry and records the new day; the first pick's generator is
freshly seeded with the stable hash of the new ISO date, source kind
and key; a second request the same day returns the cached generator
and leaves the registry unchanged (within-day stability); on valid
dates the two days' hash inputs are distinct byte strings; and on the
concrete rollover `2026-10-12 → 2026-10-13` for `("local", "/music")`
the two truncated 64-bit seeds differ. -/
theorem C10_day_rollover (reg : Registry) (D D2 : PyDate) (kind key : String)
    (hday : reg.currentDay = some D) (hne : D2 ≠ D) :
    dayCheck reg D2 = ⟨some D2, []⟩
    ∧ rngFor (dayCheck reg D2) D2 kind key
        = (⟨rngSeedFor D2 kind key, 0⟩,
           ⟨some D2, [((kind, key), ⟨rngSeedFor D2 kind key, 0⟩)]⟩)
    ∧ rngFor (rngFor (dayCheck reg D2) D2 kind key).2 D2 kind key
        = (⟨rngSeedFor D2 kind key, 0⟩, (rngFor (dayCheck reg D2) D2 kind key).2)
    ∧ (D.valid → D2.valid →
        joinNul [isoBytes D2, utf8 kind, utf8 key]
          ≠ joinNul [isoBytes D, utf8 kind, utf8 key])
    ∧ rngSeedFor ⟨2026, 10, 13⟩ "local" "/music" = 9417797434474908813
    ∧ rngSeedFor ⟨2026, 10, 12⟩ "local" "/music" = 8444548933162222493
    ∧ rngSeedFor ⟨2026, 10, 13⟩ "local" "/music"
        ≠ rngSeedFor ⟨2026, 10, 12⟩ "local" "/music" := by
  have hclear : dayCheck reg D2 = ⟨some D2, []⟩ := by
    have : ¬ reg.currentDay = some D2 := by
      rw [hday]
      simp only [Option.some.injEq]
      exact fun h => hne h.symm
    simp [dayCheck, this]
  have hfresh : rngFor (dayCheck reg D2) D2 kind key
      = (⟨rngSeedFor D2 kind key, 0⟩,
         ⟨some D2, [((kind, key), ⟨rngSeedFor D2 kind key, 0⟩)]⟩) := by
    rw [hclear]
    simp [rngFor, lookupEntry]
  have hstable : rngFor (rngFor (dayCheck reg D2) D2 kind key).2 D2 kind key
      = (⟨rngSeedFor D2 kind key, 0⟩, (rngFor (dayCheck reg D2) D2 kind key).2) := by
    rw [hfresh]
    simp [rngFor, lookupEntry]
  have hseed1 : rngSeedFor ⟨2026, 10, 13⟩ "local" "/music"
      = 9417797434474908813 := by decide
  have hseed2 : rngSeedFor ⟨2026, 10, 12⟩ "local" "/music"
      = 8444548933162222493 := by decide
  refine ⟨hclear, hfresh, hstable, ?_, hseed1, hseed2, ?_⟩
  · intro hv hv2 habs
    simp only [joinNul] at habs
    have hlen : (isoBytes D2).length = (isoBytes D).length := by
      rw [isoBytes_length, isoBytes_length]
    have := (List.append_inj habs hlen).1
    exact hne (isoBytes_inj D2 D hv2 hv this)
  · rw [hseed1, hseed2]
    decide

/-- C10 witness: a registry populated on 2026-10-12 is wiped by the
rollover to 2026-10-13, and the fresh pick for `("local", "/music")`
uses the new day's seed. -/
theorem C10_day_rollover_witness :
    ((⟨some ⟨2026, 10, 12⟩, [(("local", "/music"), ⟨7, 9⟩)]⟩ : Registry).currentDay
        = some ⟨2026, 10, 12⟩ ∧
      (⟨2026, 10, 13⟩ : PyDate) ≠ ⟨2026, 10, 12⟩) ∧
    dayCheck ⟨some ⟨2026, 10, 12⟩, [(("local", "/music"), ⟨7, 9⟩)]⟩ ⟨2026, 10, 13⟩
        = ⟨some ⟨2026, 10, 13⟩, []⟩ ∧
    rngFor (dayCheck ⟨some ⟨2026, 10, 12⟩, [(("local", "/music"), ⟨7, 9⟩)]⟩
          ⟨2026, 10, 13⟩) ⟨2026, 10, 13⟩ "local" "/music"
        = (⟨rngSeedFor ⟨2026, 10, 13⟩ "local" "/music", 0⟩,
           ⟨some ⟨2026, 10, 13⟩,
            [(("local", "/music"),
              ⟨rngSeedFor ⟨2026, 10, 13⟩ "local" "/music", 0⟩)]⟩) ∧
    rngSeedFor ⟨2026, 10, 13⟩ "local" "/music"
        ≠ rngSeedFor ⟨2026, 10, 12⟩ "local" "/music" := by
  have h := C10_day_rollover ⟨some ⟨2026, 10, 12⟩, [(("local", "/music"), ⟨7, 9⟩)]⟩
    ⟨2026, 10, 12⟩ ⟨2026, 10, 13⟩ "local" "/music" rfl (by decide)
  exact ⟨⟨rfl, by decide⟩, h.1, h.2.1, h.2.2.2.2.2.2⟩
